import Mathlib

/-!
Verification of the slider-captcha solving module `src/utils/captcha_solver.py`.

The module is embedded shallowly: the numeric logic (clamping, drag-distance
computation, result reconciliation, motion-path synthesis) is translated
directly into Lean functions over `ℚ` (and `ℝ` for the trigonometric easing),
while the browser-facing effects (element queries, image decoding, the bodies
of the individual image-processing estimators, pointer primitives) are
abstracted as environment records supplying their observable outcomes,
including the possibility of a raised exception (`Except Unit`).
All floats of the source are modelled as exact rationals/reals.
-/

/-- Python truncating conversion `int(q)` on a rational: rounds toward zero. -/
def pyInt (q : ℚ) : ℤ := Int.tdiv q.num (q.den : ℤ)

/-- The clamp `max(0.05, min(0.95, x))` applied in `_attempt_solve`
(and inside the OpenCV estimators) before a gap fraction is used. -/
def clampFrac (x : ℚ) : ℚ := max (5/100) (min (95/100) x)

/-- Environment of a single `_attempt_solve` call: the measured slider
geometry (`some (track_width, button_width)` when the slider button, track
and both bounding boxes were found), the outcome of
`_analyze_puzzle_images`, and the `random.uniform(0.2, 0.7)` draw used
only when the analysis declines. -/
structure AttemptEnv where
  geometry : Option (ℚ × ℚ)
  analysis : Option ℚ
  randFrac : ℚ

/-- Model of `TikTokCaptchaSolver._attempt_solve`, lines 122-175: returns
whether a drag was performed together with the integer drag distance
passed to `_human_drag`.  With geometry present, an analysis result `r` is
adjusted by the jitter offset and clamped
(`max(0.05, min(0.95, r + jitter))`) and the drag distance is
`int(usable_width * adjusted)`; when the analysis declines, the random
fraction is used as-is: `int(usable_width * rand)`. -/
def attemptSolve (jitter : ℚ) (e : AttemptEnv) : Bool × Option ℤ :=
  match e.geometry with
  | none => (false, none)
  | some (tw, bw) =>
    let usable := tw - bw
    match e.analysis with
    | some r => (true, some (pyInt (usable * clampFrac (r + jitter))))
    | none => (true, some (pyInt (usable * e.randFrac)))

/-- The `try ... except` wrapper that every estimator stage of the module
carries: a raised exception becomes a None (decline) for that stage. -/
def catchStage (x : Except Unit (Option ℚ)) : Option ℚ :=
  match x with
  | Except.error _ => none
  | Except.ok v => v

/-- Environment of `_solve_with_opencv`: whether the background image was
found/decoded, whether a piece image was found/decoded, and the raw bodies
(before their local `try/except`) of the three OpenCV estimator stages
`_match_by_canny_edge`, `_match_by_grayscale`, `_detect_gap_by_canny`. -/
structure CvEnv where
  bgOk : Bool
  hasPiece : Bool
  cannyBody : Except Unit (Option ℚ)
  grayBody : Except Unit (Option ℚ)
  gapBody : Except Unit (Option ℚ)

/-- Python `max(results, key=lambda x: x[2])` over a nonempty list of
(fraction, confidence) pairs: keeps the first entry of maximal confidence. -/
def pickBest (hd : ℚ × ℚ) (tl : List (ℚ × ℚ)) : ℚ × ℚ :=
  tl.foldl (fun b x => if b.2 < x.2 then x else b) hd

/-- Result-reconciliation tail of `_solve_with_opencv`, lines 265-296:
no result → None; a single result → that fraction; several results →
confidence-weighted average when the spread `max - min` is below 0.1,
otherwise the fraction of the highest-confidence entry. -/
def reconcile : List (ℚ × ℚ) → Option ℚ
  | [] => none
  | [p] => some p.1
  | p :: q :: tl =>
    let mx := (q.1 :: tl.map Prod.fst).foldl max p.1
    let mn := (q.1 :: tl.map Prod.fst).foldl min p.1
    if mx - mn < 1/10 then
      some ((((p :: q :: tl).map fun x => x.1 * x.2).sum)
        / (((p :: q :: tl).map Prod.snd).sum))
    else some (pickBest p (q :: tl)).1

/-- Model of `TikTokCaptchaSolver._solve_with_opencv`, lines 201-296: runs
the Canny template stage and the grayscale template stage (each only when
a piece image is present) and the background-only gap scan, collects their
caught outcomes with confidences 0.92, 0.80, 0.65, and reconciles. -/
def solveWithOpencv (e : CvEnv) : Option ℚ :=
  if e.bgOk = false then none
  else
    let r1 := if e.hasPiece then catchStage e.cannyBody else none
    let r2 := if e.hasPiece then catchStage e.grayBody else none
    let r3 := catchStage e.gapBody
    let results :=
      (match r1 with | some x => [(x, (92:ℚ)/100)] | none => []) ++
      (match r2 with | some x => [(x, (80:ℚ)/100)] | none => []) ++
      (match r3 with | some x => [(x, (65:ℚ)/100)] | none => [])
    reconcile results

/-- Python `a or b` on optional fractions, as in the final
`return edge_ratio or brightness_ratio` of `_local_image_analysis`:
a present value of 0.0 is falsy and falls through to the second operand. -/
def pyOr (a b : Option ℚ) : Option ℚ :=
  match a with
  | some x => if x = 0 then b else some x
  | none => b

/-- Environment of `_local_image_analysis` (the Pillow fallback): whether
both image elements and their src attributes were found, whether both data
URIs decoded, and the raw bodies (before their local `try/except`) of
`_find_gap_by_edge_energy`, `_find_gap_position` and
`_analyze_from_screenshot`. -/
structure PilEnv where
  elemsOk : Bool
  decodeOk : Bool
  edgeBody : Except Unit (Option ℚ)
  brightBody : Except Unit (Option ℚ)
  shotBody : Except Unit (Option ℚ)

/-- Model of `TikTokCaptchaSolver._local_image_analysis`, lines 558-601:
on a decode failure it falls back to the screenshot analysis; with both
estimators succeeding it averages them when they agree within 0.15 and
otherwise prefers the edge-energy result; else it returns
`edge or brightness`. -/
def localAnalysis (e : PilEnv) : Option ℚ :=
  if e.elemsOk = false then none
  else if e.decodeOk = false then catchStage e.shotBody
  else
    let edge := catchStage e.edgeBody
    let bright := catchStage e.brightBody
    match edge, bright with
    | some er, some br =>
      if |er - br| < 15/100 then some ((er + br) / 2) else some er
    | _, _ => pyOr edge bright

/-- Environment of `_analyze_puzzle_images`: the OpenCV availability flag
and the environments of the two sub-analyses. -/
structure LocEnv where
  hasOpencv : Bool
  cv : CvEnv
  pil : PilEnv

/-- Model of `TikTokCaptchaSolver._analyze_puzzle_images`, lines 177-195:
the OpenCV cascade when available, falling back to the Pillow analysis
when it declines. -/
def analyzePuzzle (e : LocEnv) : Option ℚ :=
  match (if e.hasOpencv then solveWithOpencv e.cv else none) with
  | some r => some r
  | none => localAnalysis e.pil

/-- Environment of a `solve()` run: the successive outcomes of
`is_captcha_visible` polls (indexed by poll number) and, per attempt
number, the outcome of `_attempt_solve` (`Except.error` models a raised
exception caught by the `except` clause of `solve`). -/
structure SolveEnv where
  visible : ℕ → Bool
  attempt : ℕ → Except Unit Bool

/-- The post-drag verification loop of `solve`, lines 94-102
(`for wait_i in range(6)`): polls the detector; a disappearance followed by
a confirming second poll is success; a reappearance after the second poll
breaks out for a refresh.  Returns the outcome and the next poll index. -/
def verifyWait (env : SolveEnv) : ℕ → ℕ → Bool × ℕ
  | 0, p => (false, p)
  | fuel + 1, p =>
    if env.visible p then verifyWait env fuel (p + 1)
    else if env.visible (p + 1) then (false, p + 2)
    else (true, p + 2)

/-- The retry loop of `TikTokCaptchaSolver.solve`, lines 67-120, over an
attempt budget `fuel`, the current attempt number `a`, the poll index `p`,
the number of `_refresh` calls so far `r`, and the number of
`_attempt_solve` calls so far `n`.  Returns the boolean result of `solve`
together with the final `_refresh` and `_attempt_solve` counts. -/
def solveLoop (env : SolveEnv) : ℕ → ℕ → ℕ → ℕ → ℕ → Bool × ℕ × ℕ
  | 0, _, _, r, n => (false, r, n)
  | fuel + 1, a, p, r, n =>
    if env.visible p then
      match env.attempt a with
      | Except.error _ =>
        if env.visible (p + 1) then solveLoop env fuel (a + 1) (p + 2) (r + 1) (n + 1)
        else (true, r, n + 1)
      | Except.ok false =>
        if env.visible (p + 1) then solveLoop env fuel (a + 1) (p + 2) (r + 1) (n + 1)
        else (true, r, n + 1)
      | Except.ok true =>
        match verifyWait env 6 (p + 1) with
        | (true, _) => (true, r, n + 1)
        | (false, q) => solveLoop env fuel (a + 1) q (r + 1) (n + 1)
    else (true, r, n)

/-- A full `solve()` call: `MAX_RETRIES = 3` attempts, starting at attempt
number 1, poll index 0 and zeroed counters. -/
def solveRun (env : SolveEnv) : Bool × ℕ × ℕ := solveLoop env 3 1 0 0 0

/-- The environment in which the challenge never disappears: every
visibility poll is positive and every drag attempt completes. -/
def envAllVis : SolveEnv := ⟨fun _ => true, fun _ => Except.ok true⟩

/-- Substring test on character lists, as Python's `pat in s`. -/
def containsSub : List Char → List Char → Bool
  | [], pat => pat.isEmpty
  | c :: tl, pat => pat.isPrefixOf (c :: tl) || containsSub tl pat

/-- The text fallback of `is_captcha_visible`, line 61: whether the page
body text contains "Drag the slider" or "drag the slider". -/
def textMatches (s : String) : Bool :=
  containsSub s.toList ("Drag the slider").toList ||
    containsSub s.toList ("drag the slider").toList

/-- The three page probes `is_captcha_visible` can perform, in source
order: the slider-track selector, the background-image selector, and the
body-text evaluation. -/
inductive Probe where
  | slider
  | bgImage
  | bodyText
deriving DecidableEq

/-- Environment of `is_captcha_visible`: whether each structural selector
matches, and the body-text evaluation (which may raise, its exception
being swallowed by the local `try/except`). -/
structure DetectEnv where
  slider : Bool
  bgImg : Bool
  bodyText : Except Unit String

/-- Model of `TikTokCaptchaSolver.is_captcha_visible`, lines 49-65,
instrumented with the list of probes actually performed: the slider-track
element first, then the background image, then the instructional text,
returning true at the first positive signal. -/
def isCaptchaVisible (e : DetectEnv) : Bool × List Probe :=
  if e.slider then (true, [Probe.slider])
  else if e.bgImg then (true, [Probe.slider, Probe.bgImage])
  else
    match e.bodyText with
    | Except.ok t => (textMatches t, [Probe.slider, Probe.bgImage, Probe.bodyText])
    | Except.error _ => (false, [Probe.slider, Probe.bgImage, Probe.bodyText])

/-- Environment of `_human_drag`: whether the slider's bounding box was
obtained, and which step of the path replay (if any) raises when the
pointer-move primitive fails. -/
structure DragEnv where
  boxOk : Bool
  moveFails : ℕ → Bool

/-- The replay loop of `_human_drag`, lines 940-942: issues one pointer
move per path element; a failing move raises out of the loop. -/
def dragReplay (e : DragEnv) : ℕ → ℕ → Except Unit Unit
  | 0, _ => Except.ok ()
  | m + 1, i =>
    if e.moveFails i then Except.error () else dragReplay e m (i + 1)

/-- Model of `TikTokCaptchaSolver._human_drag`, lines 920-946, over a path
of `n` steps: returns the call outcome together with whether `mouse.down`
and `mouse.up` were issued.  The source has no `try/finally` around the
replay, so an exception propagates before the final `mouse.up` line. -/
def humanDrag (e : DragEnv) (n : ℕ) : Except Unit Unit × Bool × Bool :=
  if e.boxOk = false then (Except.ok (), false, false)
  else
    match dragReplay e n 0 with
    | Except.error _ => (Except.error (), true, false)
    | Except.ok _ => (Except.ok (), true, true)

/-- The eased/overshoot progress of step `i` of `steps` in
`_generate_human_path`, lines 960-971: ease-in-out via
`0.5 - 0.5*cos(pi*t)`, scaled by the overshoot for the first 80% of the
drag and blended back toward 1 over the last 20%. -/
noncomputable def pathProgress (overshoot : ℝ) (steps i : ℕ) : ℝ :=
  let t : ℝ := (i : ℝ) / (steps : ℝ)
  let eased : ℝ := 0.5 - 0.5 * Real.cos (Real.pi * t)
  if t < 0.8 then eased * overshoot
  else overshoot * eased - (overshoot - 1.0) * ((t - 0.8) / 0.2) * eased

/-- The horizontal delta of step `i`: `distance * min(progress, overshoot)`
(line 973). -/
noncomputable def pathDx (distance : ℤ) (overshoot : ℝ) (steps i : ℕ) : ℝ :=
  (distance : ℝ) * min (pathProgress overshoot steps i) overshoot

/-- Model of `TikTokCaptchaSolver._generate_human_path`, lines 948-990,
with the random draws supplied as parameters:
`steps = random.randint(25, 40)`, `overshoot = random.uniform(1.02, 1.08)`,
the per-step Gaussian vertical jitter `dy` and per-step delay `delay`, and
the final corrective step's delay.  Returns the list of
`(dx, dy, delay)` tuples. -/
noncomputable def generateHumanPath (distance : ℤ) (steps : ℕ) (overshoot : ℝ)
    (dy delay : ℕ → ℝ) (finalDelay : ℝ) : List (ℝ × ℝ × ℝ) :=
  ((List.range steps).map fun i =>
    (pathDx distance overshoot steps i, dy i, delay i))
    ++ [((distance : ℝ), 0, finalDelay)]

/-- C1: for any gap fraction in [0,1] and any jitter offset the orchestrator
can hold (0.0 initially, or a `random.uniform(-0.05, 0.05)` draw scaled by
an attempt number 1..3), the adjusted fraction `max(0.05, min(0.95, r + j))`
lies in [0.05, 0.95], and whenever an estimate exists this clamped value is
exactly the fraction multiplied into the usable width for the drag distance. -/
theorem c1_clamp_used (r j : ℚ) (hr0 : 0 ≤ r) (hr1 : r ≤ 1)
    (hj : j = 0 ∨ ∃ u : ℚ, ∃ a : ℕ,
      -(5/100) ≤ u ∧ u ≤ 5/100 ∧ 1 ≤ a ∧ a ≤ 3 ∧ j = u * (a : ℚ)) :
    (5/100 ≤ clampFrac (r + j) ∧ clampFrac (r + j) ≤ 95/100) ∧
    ∀ tw bw rnd : ℚ,
      attemptSolve j ⟨some (tw, bw), some r, rnd⟩
        = (true, some (pyInt ((tw - bw) * clampFrac (r + j)))) := by
  refine ⟨⟨le_max_left _ _, max_le (by norm_num) (min_le_left _ _)⟩, ?_⟩
  intro tw bw rnd
  rfl

/-- Concrete instantiation of `c1_clamp_used` at r = 1/2, jitter = 0,
track width 340, button width 40. -/
theorem c1_clamp_used_witness :
    ((5:ℚ)/100 ≤ clampFrac (1/2 + 0) ∧ clampFrac (1/2 + 0) ≤ 95/100) ∧
    attemptSolve 0 ⟨some (340, 40), some (1/2), 0⟩
      = (true, some (pyInt ((340 - 40) * clampFrac (1/2 + 0)))) := by
  have h := c1_clamp_used (1/2) 0 (by norm_num) (by norm_num) (Or.inl rfl)
  exact ⟨h.1, h.2 340 40 0⟩

/-- C4: when the whole image analysis declines (`_analyze_puzzle_images`
returns None) but the slider geometry was measured, the attempt is not
aborted: a drag of `int(usable_width * rand)` pixels is still performed,
with `rand` the `random.uniform(0.2, 0.7)` draw. -/
theorem c4_random_fallback_drag (e : AttemptEnv) (tw bw j : ℚ)
    (hg : e.geometry = some (tw, bw)) (ha : e.analysis = none)
    (hr0 : 1/5 ≤ e.randFrac) (hr1 : e.randFrac ≤ 7/10) :
    (attemptSolve j e).1 = true ∧
    (attemptSolve j e).2 = some (pyInt ((tw - bw) * e.randFrac)) := by
  simp [attemptSolve, hg, ha]

/-- Concrete instantiation of `c4_random_fallback_drag`: analysis declines,
rand = 1/2, usable width 300, so a 150 px drag is still performed. -/
theorem c4_random_fallback_drag_witness :
    ((1:ℚ)/5 ≤ 1/2 ∧ (1:ℚ)/2 ≤ 7/10) ∧
    (attemptSolve 0 ⟨some (340, 40), none, 1/2⟩).1 = true ∧
    (attemptSolve 0 ⟨some (340, 40), none, 1/2⟩).2 = some 150 := by
  have h := c4_random_fallback_drag ⟨some (340, 40), none, 1/2⟩ 340 40 0
    rfl rfl (by norm_num) (by norm_num)
  refine ⟨by norm_num, h.1, ?_⟩
  rw [h.2]
  norm_num [pyInt]

/-- C10: on a declined-analysis attempt the jitter offset is ignored and no
clamp is applied: the drag distance is `int(usable_width * rand)` for every
jitter value, so two runs differing only in jitter produce the same drag. -/
theorem c10_no_jitter_on_fallback (e : AttemptEnv) (tw bw j j' : ℚ)
    (hg : e.geometry = some (tw, bw)) (ha : e.analysis = none) :
    attemptSolve j e = (true, some (pyInt ((tw - bw) * e.randFrac))) ∧
    attemptSolve j e = attemptSolve j' e := by
  simp [attemptSolve, hg, ha]

/-- Concrete instantiation of `c10_no_jitter_on_fallback` with jitter 0
versus jitter 3/20: both give the same 150 px drag. -/
theorem c10_no_jitter_on_fallback_witness :
    attemptSolve 0 ⟨some (340, 40), none, 1/2⟩
      = (true, some (pyInt ((340 - 40) * (1/2)))) ∧
    attemptSolve 0 ⟨some (340, 40), none, 1/2⟩
      = attemptSolve (3/20) ⟨some (340, 40), none, 1/2⟩ :=
  c10_no_jitter_on_fallback ⟨some (340, 40), none, 1/2⟩ 340 40 0 (3/20) rfl rfl

/-- Unfolding of `solveWithOpencv` when the Canny and grayscale stages both
succeed and the gap scan declines: the result list handed to the
reconciliation step. -/
theorem opencvTwoStage (r1 r2 : ℚ) :
    solveWithOpencv ⟨true, true, Except.ok (some r1),
        Except.ok (some r2), Except.ok none⟩
      = reconcile [(r1, (92:ℚ)/100), (r2, (80:ℚ)/100)] := rfl

/-- Unfolding of `solveWithOpencv` when the Canny stage and the gap scan
succeed and the grayscale stage declines. -/
theorem opencvCannyGap (r1 r3 : ℚ) :
    solveWithOpencv ⟨true, true, Except.ok (some r1),
        Except.ok none, Except.ok (some r3)⟩
      = reconcile [(r1, (92:ℚ)/100), (r3, (65:ℚ)/100)] := rfl

/-- Unfolding of `solveWithOpencv` when the grayscale stage and the gap
scan succeed and the Canny stage declines. -/
theorem opencvGrayGap (r2 r3 : ℚ) :
    solveWithOpencv ⟨true, true, Except.ok none,
        Except.ok (some r2), Except.ok (some r3)⟩
      = reconcile [(r2, (80:ℚ)/100), (r3, (65:ℚ)/100)] := rfl

/-- Unfolding of `solveWithOpencv` when all three stages succeed. -/
theorem opencvThreeStage (r1 r2 r3 : ℚ) :
    solveWithOpencv ⟨true, true, Except.ok (some r1),
        Except.ok (some r2), Except.ok (some r3)⟩
      = reconcile [(r1, (92:ℚ)/100), (r2, (80:ℚ)/100), (r3, (65:ℚ)/100)] := rfl

/-- Unfolding of `reconcile` on a two-element result list with arbitrary
confidences. -/
theorem reconcilePair (r1 w1 r2 w2 : ℚ) :
    reconcile [(r1, w1), (r2, w2)]
      = if max r1 r2 - min r1 r2 < 1/10
        then some ((r1 * w1 + (r2 * w2 + 0)) / (w1 + (w2 + 0)))
        else some (pickBest (r1, w1) [(r2, w2)]).1 := rfl

/-- Unfolding of `reconcile` on a three-element result list with arbitrary
confidences. -/
theorem reconcileTriple (r1 w1 r2 w2 r3 w3 : ℚ) :
    reconcile [(r1, w1), (r2, w2), (r3, w3)]
      = if max (max r1 r2) r3 - min (min r1 r2) r3 < 1/10
        then some ((r1 * w1 + (r2 * w2 + (r3 * w3 + 0)))
          / (w1 + (w2 + (w3 + 0))))
        else some (pickBest (r1, w1) [(r2, w2), (r3, w3)]).1 := rfl

/-- C5 counterexample: with the Canny stage returning 0.30 and the grayscale
stage returning 0.36 (spread 0.06, within 0.1), the code returns the
confidence-weighted average 141/430 ≈ 0.3279, not the plain average 0.33. -/
theorem c5_counterexample :
    solveWithOpencv ⟨true, true, Except.ok (some (3/10)),
        Except.ok (some (36/100)), Except.ok none⟩ = some (141/430) ∧
    ((3:ℚ)/10 + 36/100) / 2 = 33/100 ∧
    (141/430 : ℚ) ≠ 33/100 := by
  refine ⟨?_, by norm_num, by norm_num⟩
  rw [opencvTwoStage, reconcilePair]
  rw [if_pos (by norm_num [max_def, min_def])]
  norm_num

/-- C5 amended: in every configuration where two or more estimator stages
of the OpenCV cascade succeed — Canny + grayscale, Canny + gap scan,
grayscale + gap scan, or all three — the reconciled result is the
confidence-weighted average of the returned fractions (weights 0.92 Canny,
0.80 grayscale, 0.65 gap scan) when their spread is strictly below 0.1,
and otherwise the fraction of the succeeding stage with the highest
confidence ranking (Canny > grayscale > gap scan). -/
theorem c5_weighted_reconciliation (r1 r2 r3 : ℚ) :
    solveWithOpencv ⟨true, true, Except.ok (some r1),
        Except.ok (some r2), Except.ok none⟩
      = some (if max r1 r2 - min r1 r2 < 1/10
          then (r1 * (92/100) + r2 * (80/100)) / (92/100 + 80/100)
          else r1) ∧
    solveWithOpencv ⟨true, true, Except.ok (some r1),
        Except.ok none, Except.ok (some r3)⟩
      = some (if max r1 r3 - min r1 r3 < 1/10
          then (r1 * (92/100) + r3 * (65/100)) / (92/100 + 65/100)
          else r1) ∧
    solveWithOpencv ⟨true, true, Except.ok none,
        Except.ok (some r2), Except.ok (some r3)⟩
      = some (if max r2 r3 - min r2 r3 < 1/10
          then (r2 * (80/100) + r3 * (65/100)) / (80/100 + 65/100)
          else r2) ∧
    solveWithOpencv ⟨true, true, Except.ok (some r1),
        Except.ok (some r2), Except.ok (some r3)⟩
      = some (if max (max r1 r2) r3 - min (min r1 r2) r3 < 1/10
          then (r1 * (92/100) + r2 * (80/100) + r3 * (65/100))
            / (92/100 + 80/100 + 65/100)
          else r1) := by
  refine ⟨?_, ?_, ?_, ?_⟩
  · rw [opencvTwoStage, reconcilePair]
    by_cases h : max r1 r2 - min r1 r2 < 1/10
    · rw [if_pos h, if_pos h]
      norm_num
    · rw [if_neg h, if_neg h]
      norm_num [pickBest]
  · rw [opencvCannyGap, reconcilePair]
    by_cases h : max r1 r3 - min r1 r3 < 1/10
    · rw [if_pos h, if_pos h]
      norm_num
    · rw [if_neg h, if_neg h]
      norm_num [pickBest]
  · rw [opencvGrayGap, reconcilePair]
    by_cases h : max r2 r3 - min r2 r3 < 1/10
    · rw [if_pos h, if_pos h]
      norm_num
    · rw [if_neg h, if_neg h]
      norm_num [pickBest]
  · rw [opencvThreeStage, reconcileTriple]
    by_cases h : max (max r1 r2) r3 - min (min r1 r2) r3 < 1/10
    · rw [if_pos h, if_pos h]
      rw [Option.some_inj]
      ring_nf
    · rw [if_neg h, if_neg h]
      norm_num [pickBest, List.foldl]

/-- Under a detector that always reports the captcha visible, the
verification loop runs out its budget and reports failure. -/
theorem verifyWait_all_visible (env : SolveEnv) (h : ∀ k, env.visible k = true) :
    ∀ fuel p, verifyWait env fuel p = (false, p + fuel) := by
  intro fuel
  induction fuel with
  | zero => intro p; rfl
  | succ m ih =>
    intro p
    rw [verifyWait, h p, if_pos rfl, ih (p + 1)]
    congr 1
    omega

/-- Under a detector that always reports the captcha visible, every attempt
fails and triggers exactly one refresh, whatever `_attempt_solve` does. -/
theorem solveLoop_all_visible (env : SolveEnv) (h : ∀ k, env.visible k = true) :
    ∀ fuel a p r n, solveLoop env fuel a p r n = (false, r + fuel, n + fuel) := by
  intro fuel
  induction fuel with
  | zero => intro a p r n; rfl
  | succ m ih =>
    intro a p r n
    have h1 : r + 1 + m = r + (m + 1) := by omega
    have h2 : n + 1 + m = n + (m + 1) := by omega
    rw [solveLoop, h p, if_pos rfl]
    rcases hatt : env.attempt a with e | b
    · rw [h (p + 1), if_pos rfl, ih]
      show (false, r + 1 + m, n + 1 + m) = (false, r + (m + 1), n + (m + 1))
      rw [h1, h2]
    · cases b
      · rw [h (p + 1), if_pos rfl, ih]
        show (false, r + 1 + m, n + 1 + m) = (false, r + (m + 1), n + (m + 1))
        rw [h1, h2]
      · rw [verifyWait_all_visible env h 6 (p + 1)]
        show solveLoop env m (a + 1) (p + 1 + 6) (r + 1) (n + 1)
          = (false, r + (m + 1), n + (m + 1))
        rw [ih, h1, h2]

/-- C2 counterexample: when the challenge never disappears, `solve()` does
return false, but `_refresh` is invoked 3 times — once after every failed
attempt, including the third — not 2 times. -/
theorem c2_counterexample :
    (solveRun envAllVis).1 = false ∧
    (solveRun envAllVis).2.1 = 3 ∧ (solveRun envAllVis).2.1 ≠ 2 := by
  refine ⟨rfl, rfl, ?_⟩
  intro h
  simp [solveRun, solveLoop, verifyWait, envAllVis] at h

/-- C2 amended: if the challenge never disappears across all 3 attempts,
`solve()` returns false and the refresh control is invoked exactly 3 times,
once after each of the three failed attempts (also after the third). -/
theorem c2_three_refreshes (env : SolveEnv) (h : ∀ k, env.visible k = true) :
    solveRun env = (false, 3, 3) := by
  rw [solveRun, solveLoop_all_visible env h]

/-- Concrete instantiation of `c2_three_refreshes` on `envAllVis`. -/
theorem c2_three_refreshes_witness :
    (∀ k, envAllVis.visible k = true) ∧ solveRun envAllVis = (false, 3, 3) :=
  ⟨fun _ => rfl, c2_three_refreshes envAllVis (fun _ => rfl)⟩

/-- C8: if the detector reports no challenge on the very first poll,
`solve()` returns true immediately, with zero `_attempt_solve` calls and
zero `_refresh` calls. -/
theorem c8_absent_is_noop (env : SolveEnv) (h : env.visible 0 = false) :
    solveRun env = (true, 0, 0) := by
  rw [solveRun, solveLoop, h]
  rfl

/-- Concrete instantiation of `c8_absent_is_noop` on a page with no
captcha. -/
theorem c8_absent_is_noop_witness :
    (SolveEnv.mk (fun _ => false) (fun _ => Except.ok false)).visible 0 = false ∧
    solveRun ⟨fun _ => false, fun _ => Except.ok false⟩ = (true, 0, 0) :=
  ⟨rfl, c8_absent_is_noop ⟨fun _ => false, fun _ => Except.ok false⟩ rfl⟩

/-- The verification loop reads only the visibility oracle: two
environments with the same poll outcomes verify identically. -/
theorem verifyWait_ext (env1 env2 : SolveEnv)
    (hv : ∀ k, env1.visible k = env2.visible k) :
    ∀ fuel p, verifyWait env1 fuel p = verifyWait env2 fuel p := by
  intro fuel
  induction fuel with
  | zero => intro p; rfl
  | succ m ih =>
    intro p
    rw [verifyWait, verifyWait, hv p, hv (p + 1), ih]

/-- The `except` clause of `solve` makes a raising `_attempt_solve`
indistinguishable from one returning False: sleep, re-poll, refresh,
escalate jitter, retry.  Two environments that agree everywhere except
that attempt `a` raises in one and returns False in the other produce
identical runs. -/
theorem solveLoop_error_like_failure (env1 env2 : SolveEnv) (a : ℕ)
    (hv : ∀ k, env1.visible k = env2.visible k)
    (hne : ∀ k, k ≠ a → env1.attempt k = env2.attempt k)
    (h1 : env1.attempt a = Except.error ())
    (h2 : env2.attempt a = Except.ok false) :
    ∀ fuel start p r n,
      solveLoop env1 fuel start p r n = solveLoop env2 fuel start p r n := by
  intro fuel
  induction fuel with
  | zero => intro start p r n; rfl
  | succ m ih =>
    intro start p r n
    rw [solveLoop, solveLoop, hv p]
    by_cases hvp : env2.visible p = true
    · rw [if_pos hvp, if_pos hvp]
      by_cases hsa : start = a
      · subst hsa
        rw [h1, h2]
        show (if env1.visible (p + 1) = true then _ else _)
          = (if env2.visible (p + 1) = true then _ else _)
        rw [hv (p + 1)]
        by_cases hq : env2.visible (p + 1) = true
        · rw [if_pos hq, if_pos hq, ih]
        · rw [if_neg hq, if_neg hq]
      · rw [hne start hsa]
        rcases henv : env2.attempt start with e | b
        · show (if env1.visible (p + 1) = true then _ else _)
            = (if env2.visible (p + 1) = true then _ else _)
          rw [hv (p + 1)]
          by_cases hq : env2.visible (p + 1) = true
          · rw [if_pos hq, if_pos hq, ih]
          · rw [if_neg hq, if_neg hq]
        · cases b
          · show (if env1.visible (p + 1) = true then _ else _)
              = (if env2.visible (p + 1) = true then _ else _)
            rw [hv (p + 1)]
            by_cases hq : env2.visible (p + 1) = true
            · rw [if_pos hq, if_pos hq, ih]
            · rw [if_neg hq, if_neg hq]
          · rw [verifyWait_ext env1 env2 hv 6 (p + 1)]
            rcases hvw : verifyWait env2 6 (p + 1) with ⟨b2, q⟩
            cases b2
            · show solveLoop env1 m (start + 1) q (r + 1) (n + 1)
                = solveLoop env2 m (start + 1) q (r + 1) (n + 1)
              exact ih (start + 1) q (r + 1) (n + 1)
            · rfl
    · rw [if_neg hvp, if_neg hvp]

/-- C3: an exception raised inside any single estimator stage (Canny
template match, grayscale template match, background-only gap scan, PIL
edge-energy analysis, PIL brightness analysis, screenshot fallback) is
caught in that stage and equals a decline of that stage only, so the
cascade continues unchanged; an exception escaping `_attempt_solve` is
caught by `solve` and handled exactly like a failed attempt; and an
exhausted retry budget surfaces only as the boolean result false. -/
theorem c3_exceptions_contained (ecv : CvEnv) (epil : PilEnv) (env : SolveEnv)
    (a fuel start p r n : ℕ) :
    solveWithOpencv { ecv with cannyBody := Except.error () }
      = solveWithOpencv { ecv with cannyBody := Except.ok none } ∧
    solveWithOpencv { ecv with grayBody := Except.error () }
      = solveWithOpencv { ecv with grayBody := Except.ok none } ∧
    solveWithOpencv { ecv with gapBody := Except.error () }
      = solveWithOpencv { ecv with gapBody := Except.ok none } ∧
    localAnalysis { epil with edgeBody := Except.error () }
      = localAnalysis { epil with edgeBody := Except.ok none } ∧
    localAnalysis { epil with brightBody := Except.error () }
      = localAnalysis { epil with brightBody := Except.ok none } ∧
    localAnalysis { epil with shotBody := Except.error () }
      = localAnalysis { epil with shotBody := Except.ok none } ∧
    solveLoop ⟨env.visible, Function.update env.attempt a (Except.error ())⟩
        fuel start p r n
      = solveLoop ⟨env.visible, Function.update env.attempt a (Except.ok false)⟩
        fuel start p r n ∧
    solveLoop env 0 start p r n = (false, r, n) := by
  refine ⟨rfl, rfl, rfl, rfl, rfl, rfl, ?_, rfl⟩
  refine solveLoop_error_like_failure
    ⟨env.visible, Function.update env.attempt a (Except.error ())⟩
    ⟨env.visible, Function.update env.attempt a (Except.ok false)⟩
    a (fun k => rfl) ?_ ?_ ?_ fuel start p r n
  · intro k hk
    show Function.update env.attempt a (Except.error ()) k
      = Function.update env.attempt a (Except.ok false) k
    rw [Function.update_noteq hk, Function.update_noteq hk]
  · exact Function.update_same a (Except.error ()) env.attempt
  · exact Function.update_same a (Except.ok false) env.attempt

/-- C7: the detector evaluates its three signals in the fixed order
slider track, background image, instructional text; it stops at the first
positive signal, falls back to the text only when both selectors miss,
and reports false only when no signal matched. -/
theorem c7_detector_order (e : DetectEnv) (t : String) :
    (e.slider = true → isCaptchaVisible e = (true, [Probe.slider])) ∧
    (e.slider = false → e.bgImg = true →
      isCaptchaVisible e = (true, [Probe.slider, Probe.bgImage])) ∧
    (e.slider = false → e.bgImg = false → e.bodyText = Except.ok t →
      isCaptchaVisible e
        = (textMatches t, [Probe.slider, Probe.bgImage, Probe.bodyText])) ∧
    (e.slider = false → e.bgImg = false → e.bodyText = Except.error () →
      isCaptchaVisible e
        = (false, [Probe.slider, Probe.bgImage, Probe.bodyText])) ∧
    ((isCaptchaVisible e).1 = false → e.slider = false ∧ e.bgImg = false) := by
  refine ⟨?_, ?_, ?_, ?_, ?_⟩
  · intro hs
    simp [isCaptchaVisible, hs]
  · intro hs hb
    simp [isCaptchaVisible, hs, hb]
  · intro hs hb ht
    simp [isCaptchaVisible, hs, hb, ht]
  · intro hs hb ht
    simp [isCaptchaVisible, hs, hb, ht]
  · intro hf
    by_cases hs : e.slider = true
    · simp [isCaptchaVisible, hs] at hf
    · by_cases hb : e.bgImg = true
      · simp [isCaptchaVisible, hs, hb] at hf
      · exact ⟨by simpa using hs, by simpa using hb⟩

/-- Concrete instantiation of `c7_detector_order`: both selectors miss,
the body text contains the instructional sentence, and the detector
reports true after performing all three probes in order. -/
theorem c7_detector_order_witness :
    isCaptchaVisible ⟨false, false, Except.ok "Drag the slider to fit the puzzle"⟩
      = (true, [Probe.slider, Probe.bgImage, Probe.bodyText]) := by
  have h := (c7_detector_order
    ⟨false, false, Except.ok "Drag the slider to fit the puzzle"⟩
    "Drag the slider to fit the puzzle").2.2.1 rfl rfl rfl
  rw [h]
  decide

/-- C9 is violated by the code: when the pointer-move primitive raises at
the third step of a 31-element path after `mouse.down` was issued, the
drag routine propagates the exception and `mouse.up` is never issued,
leaving the pointer held down. -/
theorem c9_pointer_left_down :
    humanDrag ⟨true, fun i => decide (i = 2)⟩ 31
      = (Except.error (), true, false) := rfl

/-- C6: for every non-negative distance, with the step count drawn from
[25, 40] and the overshoot from [1.02, 1.08], the generated motion plan
ends exactly on `(distance, 0, delay)`, has between 25 and 41 elements,
and no element's dx exceeds `distance * overshoot`. -/
theorem c6_motion_plan (distance : ℤ) (steps : ℕ) (overshoot : ℝ)
    (dy delay : ℕ → ℝ) (fd : ℝ)
    (hd : 0 ≤ distance) (hs1 : 25 ≤ steps) (hs2 : steps ≤ 40)
    (ho1 : (102:ℝ)/100 ≤ overshoot) (ho2 : overshoot ≤ (108:ℝ)/100) :
    (generateHumanPath distance steps overshoot dy delay fd).getLast?
      = some ((distance : ℝ), 0, fd) ∧
    25 ≤ (generateHumanPath distance steps overshoot dy delay fd).length ∧
    (generateHumanPath distance steps overshoot dy delay fd).length ≤ 41 ∧
    ∀ x ∈ generateHumanPath distance steps overshoot dy delay fd,
      x.1 ≤ (distance : ℝ) * overshoot := by
  have hd' : (0:ℝ) ≤ (distance : ℝ) := by exact_mod_cast hd
  refine ⟨?_, ?_, ?_, ?_⟩
  · simp [generateHumanPath]
  · simp only [generateHumanPath, List.length_append, List.length_map,
      List.length_range, List.length_singleton]
    omega
  · simp only [generateHumanPath, List.length_append, List.length_map,
      List.length_range, List.length_singleton]
    omega
  · intro x hx
    rw [generateHumanPath, List.mem_append] at hx
    rcases hx with hx | hx
    · rw [List.mem_map] at hx
      obtain ⟨i, _, hxi⟩ := hx
      rw [← hxi]
      show pathDx distance overshoot steps i ≤ (distance : ℝ) * overshoot
      exact mul_le_mul_of_nonneg_left (min_le_right _ _) hd'
    · rw [List.mem_singleton] at hx
      rw [hx]
      show (distance : ℝ) ≤ (distance : ℝ) * overshoot
      exact le_mul_of_one_le_right hd' (by linarith)

/-- Concrete instantiation of `c6_motion_plan` at distance 120, 30 steps,
overshoot 1.05, silent vertical jitter and uniform delays. -/
theorem c6_motion_plan_witness :
    ((0:ℤ) ≤ 120 ∧ 25 ≤ 30 ∧ 30 ≤ 40 ∧
      (102:ℝ)/100 ≤ 105/100 ∧ (105:ℝ)/100 ≤ 108/100) ∧
    ((generateHumanPath 120 30 (105/100)
        (fun _ => 0) (fun _ => 1/100) (3/100)).getLast?
      = some (((120:ℤ) : ℝ), 0, 3/100) ∧
    25 ≤ (generateHumanPath 120 30 (105/100)
        (fun _ => 0) (fun _ => 1/100) (3/100)).length ∧
    (generateHumanPath 120 30 (105/100)
        (fun _ => 0) (fun _ => 1/100) (3/100)).length ≤ 41 ∧
    ∀ x ∈ generateHumanPath 120 30 (105/100)
        (fun _ => 0) (fun _ => 1/100) (3/100),
      x.1 ≤ ((120:ℤ) : ℝ) * (105/100)) :=
  ⟨by norm_num,
    c6_motion_plan 120 30 (105/100) (fun _ => 0) (fun _ => 1/100) (3/100)
      (by norm_num) (by norm_num) (by norm_num) (by norm_num) (by norm_num)⟩
